import Mathlib

/-
Verification development for `bnns/experiments/train_nn.py`: a shallow
embedding of the checkpointed training-and-evaluation loop with early
stopping, the checkpoint-list normalization, the stochasticity probe, the
metrics dispatch, the grid-availability error handling, and the CLI block.

Numeric tensor quantities (losses, model outputs) are embedded as rational
numbers; the numerically heavy collaborators (forward passes, gradients,
the optimizer) are abstracted as oracle functions in the configuration,
since the script delegates them wholesale to the deep-learning framework.
-/

/-- Modelled from the spec: the class `EarlyStopper` lives in `bnns.utils`,
which is not part of the sources here (only its call sites are).  Per the
spec it keeps `best` (initialized to plus-infinity, embedded as `none`) and
`counter` (initialized to 0); on each call, improvement by more than
`delta` resets the counter and records the new best, otherwise the counter
is incremented and the stop signal is `true` exactly when
`counter >= patience`. -/
structure EarlyStopper where
  delta : ℚ
  patience : Nat
  best : Option ℚ := none
  counter : Nat := 0
deriving DecidableEq

/-- One call `early_stopper(value)`: returns the stop signal and the
updated stopper state. -/
def EarlyStopper.call (st : EarlyStopper) (value : ℚ) : Bool × EarlyStopper :=
  match st.best with
  | none => (false, { st with best := some value, counter := 0 })
  | some b =>
    if value < b - st.delta then
      (false, { st with best := some value, counter := 0 })
    else
      (decide (st.patience ≤ st.counter + 1), { st with counter := st.counter + 1 })

/-- Feed a whole list of values to the stopper, collecting the returned
stop signals. -/
def runStopper (st : EarlyStopper) : List ℚ → List Bool × EarlyStopper
  | [] => ([], st)
  | v :: rest =>
    let r := st.call v
    let t := runStopper r.2 rest
    (r.1 :: t.1, t.2)

/-- A fresh stopper, as constructed by
`EarlyStopper( delta=DELTA, patience=PATIENCE )`. -/
def freshStopper (delta : ℚ) (patience : Nat) : EarlyStopper :=
  { delta := delta, patience := patience, best := none, counter := 0 }

/-- A stopper in an arbitrary mid-stream state. -/
def mkStopper (delta : ℚ) (patience : Nat) (best : Option ℚ) (counter : Nat) : EarlyStopper :=
  { delta := delta, patience := patience, best := best, counter := counter }

/-- `b < a - delta` holds between every adjacent pair (a strictly
decreasing stream in the sense of the spec), as a decidable scan. -/
def strictlyDecr (delta : ℚ) : List ℚ → Bool
  | [] => true
  | [_] => true
  | a :: b :: rest => decide (b < a - delta) && strictlyDecr delta (b :: rest)

/-- The hyperparameters and abstracted collaborators that the training
loop of `train_nn.py` reads.  `sampleLoss k i` stands for the value of
`loss_fn(NN(X),y)` at the `i`-th stochastic forward pass of training step
`k`; `valForward k` stands for the single forward pass
`loss_fn(NN(x_test),y_test)` after `k` optimizer steps. -/
structure Config where
  dropout : Bool
  N_MC_SAMPLES : Nat
  sampleLoss : Nat → Nat → ℚ
  valForward : Nat → ℚ
  HOW_OFTEN : Nat
  STRIDE : Nat
  EARLY_STOPPING : Bool
  DELTA : ℚ
  PATIENCE : Nat
  numBatches : Nat

/-- The mutable state threaded through the nested training loops.  The
fields `epochIterLog`, `fedLog` and `evalLog` are ghost instrumentation:
they record, respectively, the number of epoch-loop iterations executed at
each processed checkpoint boundary, every value fed to the early stopper,
and the boundaries whose evaluation-and-persistence stage ran. -/
structure TrainState where
  pbarN : Nat
  totalSteps : Nat
  trainLossCurve : List ℚ
  valLossCurve : List ℚ
  stopper : EarlyStopper
  decidedToStopEarly : Bool
  lastCheckpoint : Nat
  epochIterLog : List Nat
  fedLog : List ℚ
  evalLog : List Nat
deriving DecidableEq

/-- The loss of one training step: `loss += loss_fn(NN(X),y)/N_MC_SAMPLES`
over `N_MC_SAMPLES` passes when `dropout`, else a single pass. -/
def batchLoss (cfg : Config) (k : Nat) : ℚ :=
  if cfg.dropout then
    ((List.range cfg.N_MC_SAMPLES).map (fun i => cfg.sampleLoss k i / (cfg.N_MC_SAMPLES : ℚ))).sum
  else
    cfg.sampleLoss k 0

/-- `statistics.mean`: the sum divided by the length. -/
def listAvg (xs : List ℚ) : ℚ := xs.sum / (xs.length : ℚ)

/-- Python's `xs[-k:]`: the whole list when `k = 0`, otherwise the last
`k` elements (all of them when the list is shorter). -/
def pySliceLast (k : Nat) (xs : List ℚ) : List ℚ :=
  if k = 0 then xs else xs.drop (xs.length - k)

/-- The body of `for X, y in dataloader`: one gradient step
(`loss.backward(); optimizer.step(); optimizer.zero_grad()`), the
progress-bar update, and — when `(pbar.n+1)%HOW_OFTEN==0` — the
diagnostic block: append the current batch loss to `train_loss_curve`,
append `loss_fn(NN(x_test),y_test)` to `val_loss_curve`, and, when
`EARLY_STOPPING`, assign `decided_to_stop_early =
early_stopper(avg(val_loss_curve[-STRIDE:]))`. -/
def batchBody (cfg : Config) (s : TrainState) : TrainState :=
  let k := s.totalSteps + 1
  let loss := batchLoss cfg k
  let n' := s.pbarN + 1
  let s1 : TrainState := { s with totalSteps := k, pbarN := n' }
  if (n' + 1) % cfg.HOW_OFTEN = 0 then
    let val' := s1.valLossCurve ++ [cfg.valForward k]
    let s2 : TrainState :=
      { s1 with trainLossCurve := s1.trainLossCurve ++ [loss], valLossCurve := val' }
    if cfg.EARLY_STOPPING then
      let fed := listAvg (pySliceLast cfg.STRIDE val')
      let r := s2.stopper.call fed
      { s2 with stopper := r.2, decidedToStopEarly := r.1, fedLog := s2.fedLog ++ [fed] }
    else s2
  else s1

/-- The mini-batch loop over the dataloader: after the diagnostic block
sets `decided_to_stop_early`, the `break` exits the loop at once. -/
def runBatches (cfg : Config) : Nat → TrainState → TrainState
  | 0, s => s
  | b + 1, s =>
    let s' := batchBody cfg s
    if s'.decidedToStopEarly then s' else runBatches cfg b s'

/-- The epoch loop `for e in range(n_epochs-last_checkpoint)`: it has no
`break` of its own; each iteration runs the batch loop only under
`if not decided_to_stop_early`. -/
def runEpochs (cfg : Config) : Nat → TrainState → TrainState
  | 0, s => s
  | e + 1, s =>
    runEpochs cfg e (if s.decidedToStopEarly then s else runBatches cfg cfg.numBatches s)

/-- One iteration of `for n_epochs in CHECKPOINTS`: guarded by
`if not decided_to_stop_early`, it re-creates the progress bar with
`initial=last_checkpoint`, runs `range(n_epochs-last_checkpoint)` epochs,
sets `last_checkpoint = n_epochs`, and then runs the
evaluation-and-persistence stage for this boundary. -/
def runBoundary (cfg : Config) (n : Nat) (s : TrainState) : TrainState :=
  if s.decidedToStopEarly then s
  else
    let iters := n - s.lastCheckpoint
    let s1 := runEpochs cfg iters { s with pbarN := s.lastCheckpoint }
    { s1 with
      lastCheckpoint := n,
      epochIterLog := s1.epochIterLog ++ [iters],
      evalLog := s1.evalLog ++ [n] }

/-- The whole checkpoint loop over the boundary list. -/
def runAll (cfg : Config) (cs : List Nat) (s : TrainState) : TrainState :=
  match cs with
  | [] => s
  | n :: rest => runAll cfg rest (runBoundary cfg n s)

/-- The state right before the checkpoint loop: empty curves,
`last_checkpoint = 0`, a fresh stopper, and the stop flag unset. -/
def initState (cfg : Config) : TrainState :=
  { pbarN := 0, totalSteps := 0, trainLossCurve := [], valLossCurve := [],
    stopper := freshStopper cfg.DELTA cfg.PATIENCE,
    decidedToStopEarly := false, lastCheckpoint := 0,
    epochIterLog := [], fedLog := [], evalLog := [] }

/-- The Python exceptions this script distinguishes. -/
inductive PyExc where
  | attributeError
  | nameError
  | assertionError
  | typeError
  | systemExit
  | otherError
deriving DecidableEq

/-- Python values a JSON hyperparameter such as `N_EPOCHS` can take:
an integer, a float, a string, or a list. -/
inductive PyVal where
  | int (n : Int)
  | float (q : ℚ)
  | str (s : String)
  | pylist (l : List PyVal)

/-- `list(v)`: `none` when `v` is not iterable (so `list(v)` raises
`TypeError`); a copy of the elements for a list; the one-character strings
for a string. -/
def pyIter : PyVal → Option (List PyVal)
  | .pylist l => some l
  | .str s => some (s.data.map (fun c => .str (String.mk [c])))
  | _ => none

/-- `CHECKPOINTS` after the `try: list(N_EPOCHS) except TypeError:
[N_EPOCHS]` normalization. -/
def CHECKPOINTSOf (ne : PyVal) : List PyVal :=
  (pyIter ne).getD [ne]

/-- The validation loop `for n_epochs in CHECKPOINTS: assert
isinstance(n_epochs,int); assert n_epochs>=0`, raising `AssertionError`
at the first offending element. -/
def validateCheckpoints : List PyVal → Except PyExc (List Int)
  | [] => .ok []
  | .int n :: rest =>
    if 0 ≤ n then Except.map (fun l => n :: l) (validateCheckpoints rest)
    else .error .assertionError
  | _ :: _ => .error .assertionError

/-- Normalization followed by validation of `N_EPOCHS`. -/
def checkpointsOf (ne : PyVal) : Except PyExc (List Int) :=
  validateCheckpoints (CHECKPOINTSOf ne)

/-- `true` for a value that passes both assertions. -/
def isNonnegInt : PyVal → Bool
  | .int n => decide (0 ≤ n)
  | _ => false

/-- The run from `N_EPOCHS` onward: normalize and validate the checkpoint
list, then (only if validation passed) run the checkpoint loop. -/
def trainProgram (cfg : Config) (ne : PyVal) : Except PyExc TrainState :=
  match checkpointsOf ne with
  | .error e => .error e
  | .ok cs => .ok (runAll cfg (cs.map Int.toNat) (initState cfg))

/-- `difference.abs().mean()` for the probe `difference = NN(X)-NN(X)`,
with the two outputs flattened to rational lists. -/
def meanAbsDiff (y1 y2 : List ℚ) : ℚ :=
  listAvg (List.zipWith (fun a b => |a - b|) y1 y2)

/-- `dropout = (difference.abs().mean()>0).item()`: the stochasticity
flag, computed once from two forward passes on the same probe batch. -/
def dropoutFlag (y1 y2 : List ℚ) : Bool :=
  decide (0 < meanAbsDiff y1 y2)

/-- The four bookkeeping keys written into the hyperparameter record at
every evaluation stage, before the metrics branch. -/
def recordBaseKeys : List String :=
  ["n_epochs", "compute_time", "val_loss_curve", "train_loss_curve"]

/-- The nine unconditional keys of the stochastic (`if dropout:`) metrics
branch, in assignment order. -/
def baseStochasticKeys : List String :=
  ["METRIC_rmse_of_median", "METRIC_rmse_of_mean",
   "METRIC_mae_of_median", "METRIC_mae_of_mean",
   "METRIC_max_norm_of_median", "METRIC_max_norm_of_mean",
   "METRIC_median_energy_score", "METRIC_coverage",
   "METRIC_median_avg_inverval_score"]

/-- The two keys assigned for a tag by the `uncertainty_vs_accuracy`
call of the `for use_quantiles in (True,False)` loop. -/
def accuracyKeysTag (tag : String) : List String :=
  ["METRIC_uncertainty_vs_accuracy_slope_" ++ tag,
   "METRIC_uncertainty_vs_accuracy_cor_" ++ tag]

/-- The keys assigned for a tag inside the grid-dependent `try:` of that
loop (skipped via `except NameError: pass` when the grids are unbound). -/
def gridKeysTag (tag : String) : List String :=
  ["METRIC_extrapolation_uncertainty_vs_proximity_slope_" ++ tag,
   "METRIC_uncertainty_vs_proximity_cor_" ++ tag,
   "METRIC_interpolation_uncertainty_vs_proximity_slope_" ++ tag,
   "METRIC_uncertainty_vs_proximity_cor_" ++ tag,
   "METRIC_extrapolation_uncertainty_spread_" ++ tag,
   "METRIC_interpolation_uncertainty_spread_" ++ tag]

/-- All keys of the stochastic metrics branch: the tag loop runs
`use_quantiles` over `(True, False)`, i.e. tag `quantile` then `pm2_std`;
the grid-dependent keys appear only when the auxiliary grids were bound. -/
def stochasticMetricKeys (gridsBound : Bool) : List String :=
  baseStochasticKeys ++
    (accuracyKeysTag ("quantile") ++ (if gridsBound then gridKeysTag ("quantile") else [])) ++
    (accuracyKeysTag ("pm2_std") ++ (if gridsBound then gridKeysTag ("pm2_std") else []))

/-- The `METRIC_*` keys assigned by the metrics branch: the stochastic
set when `dropout`, else exactly the three plain point-error keys. -/
def metricKeysAdded (dropout gridsBound : Bool) : List String :=
  if dropout then stochasticMetricKeys gridsBound
  else ["METRIC_rmse", "METRIC_mae", "METRIC_max_norm"]

/-- Observable outcome of one evaluation-and-persistence stage: how many
warnings `my_warn` emitted, which record keys were assigned, and whether
the persistence stage ran. -/
structure EvalOutcome where
  warnings : Nat
  keys : List String
  persisted : Bool
deriving DecidableEq

/-- One evaluation-and-persistence stage.  `gridAttempt` abstracts the
body of the `try:` computing the two auxiliary-grid predictions: `.ok g`
when it ran through (`g` records whether the grids were bound), `.error e`
when it raised `e`.  The handler catches exactly `AttributeError` (one
`my_warn`, grids left unbound); every other exception is re-raised by
`except: raise`.  Afterwards the record keys are assigned and the
persistence stage runs. -/
def evalStage (dropout : Bool) (gridAttempt : Except PyExc Bool) : Except PyExc EvalOutcome :=
  match gridAttempt with
  | .ok g =>
    .ok { warnings := 0, keys := recordBaseKeys ++ metricKeysAdded dropout g, persisted := true }
  | .error .attributeError =>
    .ok { warnings := 1, keys := recordBaseKeys ++ metricKeysAdded dropout false, persisted := true }
  | .error e => .error e

/-- Modelled external fact about `argparse`: `parser.add_argument('--json',
type=str, required=True)` on a fresh parser defines a new valid option and
does not raise; the surrounding `except` branch (which prints the hint
`python train_nn.py --json demo_nn` and re-raises) is therefore
unreachable.  A missing required argument is detected later, inside
`parser.parse_args()`, which raises `SystemExit`. -/
def addArgumentJsonFails : Bool := false

/-- Result of the non-interactive CLI block: whether the hint was printed,
and either the normalized json filename or the raised exception. -/
structure CliResult where
  hintPrinted : Bool
  parsed : Except PyExc String

/-- The non-interactive CLI block of `train_nn.py`: the hint is printed
only when `add_argument` itself raises; `parse_args` fails with
`SystemExit` when `--json` is absent, else the `.json` suffix is appended
when missing. -/
def cliBlock (jsonArg : Option String) : CliResult :=
  let hint := addArgumentJsonFails
  match jsonArg with
  | none => { hintPrinted := hint, parsed := .error .systemExit }
  | some j =>
    { hintPrinted := hint,
      parsed := .ok (if j.endsWith (".json") then j else j ++ ".json") }

/-- A concrete deterministic configuration with early stopping disabled,
used to instantiate the loop theorems. -/
def cfgW : Config :=
  { dropout := false, N_MC_SAMPLES := 1,
    sampleLoss := fun _ _ => 0, valForward := fun _ => 0,
    HOW_OFTEN := 10, STRIDE := 30, EARLY_STOPPING := false,
    DELTA := 0, PATIENCE := 5, numBatches := 1 }

/-- A concrete configuration with early stopping enabled and a diagnostic
tick at every step. -/
def cfgE : Config :=
  { dropout := false, N_MC_SAMPLES := 1,
    sampleLoss := fun _ _ => 0, valForward := fun _ => 0,
    HOW_OFTEN := 1, STRIDE := 1, EARLY_STOPPING := true,
    DELTA := 0, PATIENCE := 1, numBatches := 1 }

/-- A state whose stop flag is set, for instantiating the unwinding
theorem. -/
def stoppedState : TrainState :=
  { initState cfgW with decidedToStopEarly := true }

/-- A mid-run state one stopper call away from the stop signal, for
instantiating the alignment theorem. -/
def nearStopState : TrainState :=
  { pbarN := 0, totalSteps := 0, trainLossCurve := [3], valLossCurve := [3],
    stopper := { delta := 0, patience := 1, best := some 0, counter := 0 },
    decidedToStopEarly := false, lastCheckpoint := 0,
    epochIterLog := [], fedLog := [], evalLog := [] }

theorem batchBody_ghost (cfg : Config) (s : TrainState) :
    (batchBody cfg s).lastCheckpoint = s.lastCheckpoint ∧
    (batchBody cfg s).epochIterLog = s.epochIterLog ∧
    (batchBody cfg s).evalLog = s.evalLog := by
  simp only [batchBody]
  split
  · split <;> exact ⟨rfl, rfl, rfl⟩
  · exact ⟨rfl, rfl, rfl⟩

theorem runBatches_ghost (cfg : Config) :
    ∀ b s, (runBatches cfg b s).lastCheckpoint = s.lastCheckpoint ∧
      (runBatches cfg b s).epochIterLog = s.epochIterLog ∧
      (runBatches cfg b s).evalLog = s.evalLog
  | 0, s => ⟨rfl, rfl, rfl⟩
  | b + 1, s => by
    simp only [runBatches]
    split
    · exact batchBody_ghost cfg s
    · have h1 := batchBody_ghost cfg s
      have h2 := runBatches_ghost cfg b (batchBody cfg s)
      exact ⟨h2.1.trans h1.1, h2.2.1.trans h1.2.1, h2.2.2.trans h1.2.2⟩

theorem runEpochs_ghost (cfg : Config) :
    ∀ e s, (runEpochs cfg e s).lastCheckpoint = s.lastCheckpoint ∧
      (runEpochs cfg e s).epochIterLog = s.epochIterLog ∧
      (runEpochs cfg e s).evalLog = s.evalLog
  | 0, s => ⟨rfl, rfl, rfl⟩
  | e + 1, s => by
    simp only [runEpochs]
    split
    · exact runEpochs_ghost cfg e s
    · have h1 := runBatches_ghost cfg cfg.numBatches s
      have h2 := runEpochs_ghost cfg e (runBatches cfg cfg.numBatches s)
      exact ⟨h2.1.trans h1.1, h2.2.1.trans h1.2.1, h2.2.2.trans h1.2.2⟩

theorem runBoundary_stopped (cfg : Config) (n : Nat) (s : TrainState)
    (h : s.decidedToStopEarly = true) : runBoundary cfg n s = s := by
  unfold runBoundary
  rw [if_pos h]

theorem runEpochs_stopped (cfg : Config) :
    ∀ e s, s.decidedToStopEarly = true → runEpochs cfg e s = s
  | 0, _, _ => rfl
  | e + 1, s, h => by
    unfold runEpochs
    rw [if_pos h]
    exact runEpochs_stopped cfg e s h

theorem runAll_stopped (cfg : Config) :
    ∀ cs s, s.decidedToStopEarly = true → runAll cfg cs s = s
  | [], _, _ => rfl
  | n :: rest, s, h => by
    unfold runAll
    rw [runBoundary_stopped cfg n s h]
    exact runAll_stopped cfg rest s h

theorem flag_false_of_runBoundary (cfg : Config) (n : Nat) (s : TrainState)
    (h : (runBoundary cfg n s).decidedToStopEarly = false) :
    s.decidedToStopEarly = false := by
  cases hx : s.decidedToStopEarly with
  | false => rfl
  | true =>
    rw [runBoundary_stopped cfg n s hx, hx] at h
    exact Bool.noConfusion h

theorem flag_false_of_runAll (cfg : Config) :
    ∀ cs s, (runAll cfg cs s).decidedToStopEarly = false →
      s.decidedToStopEarly = false
  | [], _, h => h
  | n :: rest, s, h => by
    have hb := flag_false_of_runAll cfg rest (runBoundary cfg n s) h
    exact flag_false_of_runBoundary cfg n s hb

theorem runBoundary_unstopped (cfg : Config) (n : Nat) (s : TrainState)
    (h : s.decidedToStopEarly = false) :
    (runBoundary cfg n s).lastCheckpoint = n ∧
    (runBoundary cfg n s).epochIterLog = s.epochIterLog ++ [n - s.lastCheckpoint] ∧
    (runBoundary cfg n s).evalLog = s.evalLog ++ [n] := by
  unfold runBoundary
  rw [if_neg (by rw [h]; exact Bool.noConfusion)]
  dsimp only
  have hg := runEpochs_ghost cfg (n - s.lastCheckpoint) { s with pbarN := s.lastCheckpoint }
  exact ⟨rfl, by rw [hg.2.1], by rw [hg.2.2]⟩

theorem runAll_flag_lastCheckpoint (cfg : Config) :
    ∀ cs s, (runAll cfg cs s).decidedToStopEarly = false →
      (runAll cfg cs s).lastCheckpoint = cs.getLastD s.lastCheckpoint
  | [], _, _ => rfl
  | n :: rest, s, h => by
    have hb : (runBoundary cfg n s).decidedToStopEarly = false :=
      flag_false_of_runAll cfg rest (runBoundary cfg n s) h
    have hs : s.decidedToStopEarly = false := flag_false_of_runBoundary cfg n s hb
    have hlc := (runBoundary_unstopped cfg n s hs).1
    have ih := runAll_flag_lastCheckpoint cfg rest (runBoundary cfg n s) h
    calc (runAll cfg (n :: rest) s).lastCheckpoint
        = rest.getLastD (runBoundary cfg n s).lastCheckpoint := ih
      _ = rest.getLastD n := by rw [hlc]
      _ = (n :: rest).getLastD s.lastCheckpoint := (List.getLastD_cons _ _ _).symm

/-- C1 (amended): at a checkpoint boundary `n` reached with the stop-early
flag unset and with `last_checkpoint ≤ n`, the epoch loop executes exactly
`n - last_checkpoint` iterations (`last_checkpoint` being the previously
processed boundary, initially 0) and afterwards `last_checkpoint = n`.
Without the amendment's hypothesis `last_checkpoint ≤ n` the original
claim fails: a decreasing boundary list executes 0 iterations where the
claim demands a negative count. -/
theorem checkpoint_scheduler_resumption (cfg : Config) (pre : List Nat) (n : Nat)
    (h1 : (runAll cfg pre (initState cfg)).decidedToStopEarly = false)
    (h2 : (runAll cfg pre (initState cfg)).lastCheckpoint ≤ n) :
    (runAll cfg pre (initState cfg)).lastCheckpoint = pre.getLastD 0 ∧
    (runBoundary cfg n (runAll cfg pre (initState cfg))).epochIterLog
      = (runAll cfg pre (initState cfg)).epochIterLog
        ++ [n - (runAll cfg pre (initState cfg)).lastCheckpoint] ∧
    ((n - (runAll cfg pre (initState cfg)).lastCheckpoint : Nat) : Int)
      = (n : Int) - ((runAll cfg pre (initState cfg)).lastCheckpoint : Int) ∧
    (runBoundary cfg n (runAll cfg pre (initState cfg))).lastCheckpoint = n := by
  have hu := runBoundary_unstopped cfg n (runAll cfg pre (initState cfg)) h1
  exact ⟨runAll_flag_lastCheckpoint cfg pre (initState cfg) h1,
    hu.2.1, Nat.cast_sub h2, hu.1⟩

/-- Closed instance of C1: after training to checkpoint 10 and then
processing boundary 20, the epoch loop at the second boundary ran exactly
10 additional iterations. -/
theorem checkpoint_scheduler_resumption_witness :
    (runAll cfgW [10] (initState cfgW)).decidedToStopEarly = false ∧
    (runAll cfgW [10] (initState cfgW)).lastCheckpoint ≤ 20 ∧
    ((runAll cfgW [10] (initState cfgW)).lastCheckpoint = [10].getLastD 0 ∧
     (runBoundary cfgW 20 (runAll cfgW [10] (initState cfgW))).epochIterLog
       = (runAll cfgW [10] (initState cfgW)).epochIterLog
         ++ [20 - (runAll cfgW [10] (initState cfgW)).lastCheckpoint] ∧
     ((20 - (runAll cfgW [10] (initState cfgW)).lastCheckpoint : Nat) : Int)
       = (20 : Int) - ((runAll cfgW [10] (initState cfgW)).lastCheckpoint : Int) ∧
     (runBoundary cfgW 20 (runAll cfgW [10] (initState cfgW))).lastCheckpoint = 20) :=
  ⟨by decide, by decide, checkpoint_scheduler_resumption cfgW [10] 20 (by decide) (by decide)⟩

/-- C1 as stated is false: with checkpoint list `[2, 1]` the second
boundary is processed with the flag unset and `last_checkpoint = 2`, the
epoch loop executes 0 iterations there, yet the claimed count
`n_epochs - last_checkpoint = 1 - 2` is `-1`. -/
theorem checkpoint_scheduler_resumption_counterexample :
    (runAll cfgW [2] (initState cfgW)).decidedToStopEarly = false ∧
    (runAll cfgW [2] (initState cfgW)).lastCheckpoint = 2 ∧
    (runBoundary cfgW 1 (runAll cfgW [2] (initState cfgW))).epochIterLog = [2, 0] ∧
    ¬ (((0 : Nat) : Int) = (1 : Int) - (2 : Int)) :=
  ⟨by decide, by decide, by decide, by decide⟩

theorem batchBody_no_tick (cfg : Config) (s : TrainState)
    (h : ¬ (s.pbarN + 1 + 1) % cfg.HOW_OFTEN = 0) :
    batchBody cfg s = { s with totalSteps := s.totalSteps + 1, pbarN := s.pbarN + 1 } := by
  simp only [batchBody]
  rw [if_neg h]

theorem batchBody_tick_noES (cfg : Config) (s : TrainState)
    (h : (s.pbarN + 1 + 1) % cfg.HOW_OFTEN = 0) (hes : cfg.EARLY_STOPPING = false) :
    batchBody cfg s =
      { s with
        totalSteps := s.totalSteps + 1
        pbarN := s.pbarN + 1
        trainLossCurve := s.trainLossCurve ++ [batchLoss cfg (s.totalSteps + 1)]
        valLossCurve := s.valLossCurve ++ [cfg.valForward (s.totalSteps + 1)] } := by
  simp only [batchBody]
  rw [if_pos h, if_neg (by rw [hes]; exact Bool.noConfusion)]

theorem batchBody_tick_ES (cfg : Config) (s : TrainState)
    (h : (s.pbarN + 1 + 1) % cfg.HOW_OFTEN = 0) (hes : cfg.EARLY_STOPPING = true) :
    batchBody cfg s =
      { s with
        totalSteps := s.totalSteps + 1
        pbarN := s.pbarN + 1
        trainLossCurve := s.trainLossCurve ++ [batchLoss cfg (s.totalSteps + 1)]
        valLossCurve := s.valLossCurve ++ [cfg.valForward (s.totalSteps + 1)]
        stopper := (s.stopper.call (listAvg (pySliceLast cfg.STRIDE
          (s.valLossCurve ++ [cfg.valForward (s.totalSteps + 1)])))).2
        decidedToStopEarly := (s.stopper.call (listAvg (pySliceLast cfg.STRIDE
          (s.valLossCurve ++ [cfg.valForward (s.totalSteps + 1)])))).1
        fedLog := s.fedLog ++ [listAvg (pySliceLast cfg.STRIDE
          (s.valLossCurve ++ [cfg.valForward (s.totalSteps + 1)]))] } := by
  simp only [batchBody]
  rw [if_pos h, if_pos hes]

theorem pySliceLast_pos (k : Nat) (xs : List ℚ) (h : 1 ≤ k) :
    pySliceLast k xs = xs.drop (xs.length - k) := by
  unfold pySliceLast
  rw [if_neg (Nat.one_le_iff_ne_zero.mp h)]

/-- C4: once the stop-early flag is set, no further training step is
executed: the mini-batch loop is exited immediately after the body that
set it, an epoch reached with the flag set does nothing, and every
remaining checkpoint boundary leaves the state untouched (so no training,
evaluation or persistence happens there and the parameters receive no
further gradient updates). -/
theorem early_stop_unwinding :
    (∀ cfg n s, s.decidedToStopEarly = true → runBoundary cfg n s = s) ∧
    (∀ cfg e s, s.decidedToStopEarly = true → runEpochs cfg e s = s) ∧
    (∀ cfg cs s, s.decidedToStopEarly = true → runAll cfg cs s = s) ∧
    (∀ cfg b s, (batchBody cfg s).decidedToStopEarly = true →
      runBatches cfg (b + 1) s = batchBody cfg s) := by
  refine ⟨runBoundary_stopped, runEpochs_stopped, runAll_stopped, ?_⟩
  intro cfg b s h
  simp only [runBatches]
  rw [if_pos h]

/-- Closed instance of C4 on a flagged state and on a state whose next
diagnostic tick raises the stop signal. -/
theorem early_stop_unwinding_witness :
    stoppedState.decidedToStopEarly = true ∧
    runBoundary cfgW 5 stoppedState = stoppedState ∧
    runEpochs cfgW 3 stoppedState = stoppedState ∧
    runAll cfgW [5, 7] stoppedState = stoppedState ∧
    (batchBody cfgE nearStopState).decidedToStopEarly = true ∧
    runBatches cfgE (1 + 1) nearStopState = batchBody cfgE nearStopState :=
  ⟨by decide,
   early_stop_unwinding.1 cfgW 5 stoppedState (by decide),
   early_stop_unwinding.2.1 cfgW 3 stoppedState (by decide),
   early_stop_unwinding.2.2.1 cfgW [5, 7] stoppedState (by decide),
   by simp [batchBody, cfgE, nearStopState, batchLoss, listAvg, pySliceLast, EarlyStopper.call],
   early_stop_unwinding.2.2.2 cfgE 1 nearStopState
     (by simp [batchBody, cfgE, nearStopState, batchLoss, listAvg, pySliceLast, EarlyStopper.call])⟩

theorem curves_len_batchBody (cfg : Config) (s : TrainState)
    (h : s.trainLossCurve.length = s.valLossCurve.length) :
    (batchBody cfg s).trainLossCurve.length = (batchBody cfg s).valLossCurve.length := by
  by_cases ht : (s.pbarN + 1 + 1) % cfg.HOW_OFTEN = 0
  · cases hes : cfg.EARLY_STOPPING with
    | false => rw [batchBody_tick_noES cfg s ht hes]; simp [h]
    | true => rw [batchBody_tick_ES cfg s ht hes]; simp [h]
  · rw [batchBody_no_tick cfg s ht]; exact h

theorem curves_len_runBatches (cfg : Config) :
    ∀ b s, s.trainLossCurve.length = s.valLossCurve.length →
      (runBatches cfg b s).trainLossCurve.length = (runBatches cfg b s).valLossCurve.length
  | 0, _, h => h
  | b + 1, s, h => by
    simp only [runBatches]
    split
    · exact curves_len_batchBody cfg s h
    · exact curves_len_runBatches cfg b _ (curves_len_batchBody cfg s h)

theorem curves_len_runEpochs (cfg : Config) :
    ∀ e s, s.trainLossCurve.length = s.valLossCurve.length →
      (runEpochs cfg e s).trainLossCurve.length = (runEpochs cfg e s).valLossCurve.length
  | 0, _, h => h
  | e + 1, s, h => by
    simp only [runEpochs]
    split
    · exact curves_len_runEpochs cfg e s h
    · exact curves_len_runEpochs cfg e _ (curves_len_runBatches cfg cfg.numBatches s h)

theorem curves_len_runBoundary (cfg : Config) (n : Nat) (s : TrainState)
    (h : s.trainLossCurve.length = s.valLossCurve.length) :
    (runBoundary cfg n s).trainLossCurve.length = (runBoundary cfg n s).valLossCurve.length := by
  unfold runBoundary
  split
  · exact h
  · exact curves_len_runEpochs cfg (n - s.lastCheckpoint) { s with pbarN := s.lastCheckpoint } h

theorem curves_len_runAll (cfg : Config) :
    ∀ cs s, s.trainLossCurve.length = s.valLossCurve.length →
      (runAll cfg cs s).trainLossCurve.length = (runAll cfg cs s).valLossCurve.length
  | [], _, h => h
  | n :: rest, s, h => by
    simp only [runAll]
    exact curves_len_runAll cfg rest _ (curves_len_runBoundary cfg n s h)

/-- C10: the train-loss and validation-loss curves stay index-aligned: a
mini-batch step preserves equality of their lengths, a step that raises
the stop signal has already appended one element to each curve (the break
comes only after both appends), and from the initial state any run of the
checkpoint loop ends with curves of equal length. -/
theorem loss_curve_alignment :
    (∀ cfg s, s.trainLossCurve.length = s.valLossCurve.length →
      (batchBody cfg s).trainLossCurve.length = (batchBody cfg s).valLossCurve.length) ∧
    (∀ cfg s, s.decidedToStopEarly = false → (batchBody cfg s).decidedToStopEarly = true →
      (batchBody cfg s).trainLossCurve.length = s.trainLossCurve.length + 1 ∧
      (batchBody cfg s).valLossCurve.length = s.valLossCurve.length + 1) ∧
    (∀ cfg cs, (runAll cfg cs (initState cfg)).trainLossCurve.length
      = (runAll cfg cs (initState cfg)).valLossCurve.length) := by
  refine ⟨curves_len_batchBody, ?_, fun cfg cs => curves_len_runAll cfg cs (initState cfg) rfl⟩
  intro cfg s hs hset
  by_cases ht : (s.pbarN + 1 + 1) % cfg.HOW_OFTEN = 0
  · cases hes : cfg.EARLY_STOPPING with
    | false =>
      rw [batchBody_tick_noES cfg s ht hes] at hset
      have hset' : s.decidedToStopEarly = true := hset
      rw [hs] at hset'
      exact Bool.noConfusion hset'
    | true =>
      rw [batchBody_tick_ES cfg s ht hes]
      exact ⟨by simp, by simp⟩
  · rw [batchBody_no_tick cfg s ht] at hset
    have hset' : s.decidedToStopEarly = true := hset
    rw [hs] at hset'
    exact Bool.noConfusion hset'

/-- Closed instance of C10 at a state one step from the stop signal and
at a full run. -/
theorem loss_curve_alignment_witness :
    ((initState cfgE).trainLossCurve.length = (initState cfgE).valLossCurve.length ∧
     (batchBody cfgE (initState cfgE)).trainLossCurve.length
       = (batchBody cfgE (initState cfgE)).valLossCurve.length) ∧
    (nearStopState.decidedToStopEarly = false ∧
     (batchBody cfgE nearStopState).decidedToStopEarly = true ∧
     (batchBody cfgE nearStopState).trainLossCurve.length
       = nearStopState.trainLossCurve.length + 1 ∧
     (batchBody cfgE nearStopState).valLossCurve.length
       = nearStopState.valLossCurve.length + 1) ∧
    (runAll cfgE [2, 3] (initState cfgE)).trainLossCurve.length
      = (runAll cfgE [2, 3] (initState cfgE)).valLossCurve.length :=
  ⟨⟨by decide, loss_curve_alignment.1 cfgE (initState cfgE) (by decide)⟩,
   ⟨by decide,
    by simp [batchBody, cfgE, nearStopState, batchLoss, listAvg, pySliceLast, EarlyStopper.call],
    loss_curve_alignment.2.1 cfgE nearStopState (by decide)
      (by simp [batchBody, cfgE, nearStopState, batchLoss, listAvg, pySliceLast,
        EarlyStopper.call])⟩,
   loss_curve_alignment.2.2 cfgE [2, 3]⟩

/-- C3: the diagnostic block runs exactly at the mini-batch steps where
the progress-bar counter satisfies `(step+1) % HOW_OFTEN == 0` (the
counter having just been incremented by `pbar.update()`); at a tick it
appends the current training-batch loss to the train-loss curve and the
single-forward-pass validation loss `valForward` (no Monte-Carlo
averaging, whatever `dropout` is) to the validation-loss curve, and, when
early stopping is enabled, feeds the mean of the last `STRIDE`
validation-loss samples (the just-extended curve included) to the early
stopper, whose return value becomes the stop flag. -/
theorem diagnostic_recorder (cfg : Config) (s : TrainState) (hstride : 1 ≤ cfg.STRIDE) :
    (¬ (s.pbarN + 1 + 1) % cfg.HOW_OFTEN = 0 →
      (batchBody cfg s).trainLossCurve = s.trainLossCurve ∧
      (batchBody cfg s).valLossCurve = s.valLossCurve ∧
      (batchBody cfg s).fedLog = s.fedLog ∧
      (batchBody cfg s).decidedToStopEarly = s.decidedToStopEarly) ∧
    ((s.pbarN + 1 + 1) % cfg.HOW_OFTEN = 0 →
      (batchBody cfg s).trainLossCurve = s.trainLossCurve ++ [batchLoss cfg (s.totalSteps + 1)] ∧
      (batchBody cfg s).valLossCurve = s.valLossCurve ++ [cfg.valForward (s.totalSteps + 1)] ∧
      (cfg.EARLY_STOPPING = true →
        (batchBody cfg s).fedLog = s.fedLog ++ [listAvg
          ((s.valLossCurve ++ [cfg.valForward (s.totalSteps + 1)]).drop
            ((s.valLossCurve ++ [cfg.valForward (s.totalSteps + 1)]).length - cfg.STRIDE))] ∧
        (batchBody cfg s).decidedToStopEarly = (s.stopper.call (listAvg
          ((s.valLossCurve ++ [cfg.valForward (s.totalSteps + 1)]).drop
            ((s.valLossCurve ++ [cfg.valForward (s.totalSteps + 1)]).length - cfg.STRIDE)))).1)) := by
  constructor
  · intro ht
    rw [batchBody_no_tick cfg s ht]
    exact ⟨rfl, rfl, rfl, rfl⟩
  · intro ht
    cases hes : cfg.EARLY_STOPPING with
    | false =>
      rw [batchBody_tick_noES cfg s ht hes]
      exact ⟨rfl, rfl, fun hcon => Bool.noConfusion hcon⟩
    | true =>
      rw [batchBody_tick_ES cfg s ht hes, pySliceLast_pos _ _ hstride]
      exact ⟨rfl, rfl, fun _ => ⟨rfl, rfl⟩⟩

/-- Closed instance of C3 at a configuration ticking on every step. -/
theorem diagnostic_recorder_witness :
    1 ≤ cfgE.STRIDE ∧
    ((initState cfgE).pbarN + 1 + 1) % cfgE.HOW_OFTEN = 0 ∧
    cfgE.EARLY_STOPPING = true ∧
    (batchBody cfgE (initState cfgE)).trainLossCurve
      = (initState cfgE).trainLossCurve ++ [batchLoss cfgE ((initState cfgE).totalSteps + 1)] ∧
    (batchBody cfgE (initState cfgE)).valLossCurve
      = (initState cfgE).valLossCurve ++ [cfgE.valForward ((initState cfgE).totalSteps + 1)] ∧
    (batchBody cfgE (initState cfgE)).fedLog = (initState cfgE).fedLog ++ [listAvg
      (((initState cfgE).valLossCurve ++ [cfgE.valForward ((initState cfgE).totalSteps + 1)]).drop
        (((initState cfgE).valLossCurve
          ++ [cfgE.valForward ((initState cfgE).totalSteps + 1)]).length - cfgE.STRIDE))] ∧
    (batchBody cfgE (initState cfgE)).decidedToStopEarly
      = ((initState cfgE).stopper.call (listAvg
        (((initState cfgE).valLossCurve ++ [cfgE.valForward ((initState cfgE).totalSteps + 1)]).drop
          (((initState cfgE).valLossCurve
            ++ [cfgE.valForward ((initState cfgE).totalSteps + 1)]).length - cfgE.STRIDE)))).1 :=
  ⟨by decide, by decide, by decide,
   ((diagnostic_recorder cfgE (initState cfgE) (by decide)).2 (by decide)).1,
   ((diagnostic_recorder cfgE (initState cfgE) (by decide)).2 (by decide)).2.1,
   (((diagnostic_recorder cfgE (initState cfgE) (by decide)).2 (by decide)).2.2 (by decide)).1,
   (((diagnostic_recorder cfgE (initState cfgE) (by decide)).2 (by decide)).2.2 (by decide)).2⟩

theorem runStopper_decreasing (delta : ℚ) (patience : Nat) :
    ∀ vs prev c, strictlyDecr delta (prev :: vs) = true →
      ((runStopper (mkStopper delta patience (some prev) c) vs).1.any (fun x => x)) = false
  | [], _, _, _ => rfl
  | v :: rest, prev, c, h => by
    have hd : decide (v < prev - delta) = true ∧ strictlyDecr delta (v :: rest) = true := by
      simp only [strictlyDecr, Bool.and_eq_true] at h
      exact ⟨h.1, h.2⟩
    have hlt : v < prev - delta := of_decide_eq_true hd.1
    have hcall : (mkStopper delta patience (some prev) c).call v
        = (false, mkStopper delta patience (some v) 0) := by
      simp [EarlyStopper.call, mkStopper, hlt]
    simp only [runStopper, hcall, List.any_cons, Bool.false_or]
    exact runStopper_decreasing delta patience rest v 0 hd.2

theorem stopper_never_stops (delta : ℚ) (patience : Nat) :
    ∀ vs, strictlyDecr delta vs = true →
      ((runStopper (freshStopper delta patience) vs).1.any (fun x => x)) = false
  | [], _ => rfl
  | v :: rest, h => by
    have hcall : (freshStopper delta patience).call v
        = (false, mkStopper delta patience (some v) 0) := rfl
    simp only [runStopper, hcall, List.any_cons, Bool.false_or]
    exact runStopper_decreasing delta patience rest v 0 h

theorem runStopper_plateau (delta : ℚ) (patience : Nat) (v : ℚ) (hd : 0 ≤ delta) :
    ∀ k c, (runStopper (mkStopper delta patience (some v) c) (List.replicate k v)).1
      = (List.range k).map (fun i => decide (patience ≤ c + i + 1))
  | 0, _ => rfl
  | k + 1, c => by
    have hnlt : ¬ v < v - delta := by
      intro hlt
      have hneg : delta < 0 := by linarith
      exact absurd hd (not_le.mpr hneg)
    have hcall : (mkStopper delta patience (some v) c).call v
        = (decide (patience ≤ c + 1), mkStopper delta patience (some v) (c + 1)) := by
      simp [EarlyStopper.call, mkStopper, hnlt]
    rw [List.replicate_succ]
    simp only [runStopper, hcall]
    rw [runStopper_plateau delta patience v hd k (c + 1)]
    rw [List.range_succ_eq_map, List.map_cons, List.map_map]
    refine congrArg₂ _ (by rw [Nat.add_zero]) ?_
    refine List.map_congr_left ?_
    intro i _
    simp only [Function.comp_apply, Nat.succ_eq_add_one]
    rw [show c + 1 + i + 1 = c + (i + 1) + 1 from by omega]

theorem stopper_plateau_outputs (delta : ℚ) (patience : Nat) (v : ℚ)
    (hd : 0 ≤ delta) (hp : 1 ≤ patience) :
    (runStopper (freshStopper delta patience) (List.replicate (patience + 1) v)).1
      = List.replicate patience false ++ [true] := by
  obtain ⟨p, rfl⟩ : ∃ p, patience = p + 1 := ⟨patience - 1, by omega⟩
  have hstep : (runStopper (freshStopper delta (p + 1)) (List.replicate (p + 1 + 1) v)).1
      = false :: (runStopper (mkStopper delta (p + 1) (some v) 0) (List.replicate (p + 1) v)).1 :=
    rfl
  rw [hstep, runStopper_plateau delta (p + 1) v hd (p + 1) 0]
  rw [List.range_succ, List.map_append]
  have hmap : (List.range p).map (fun i => decide (p + 1 ≤ 0 + i + 1))
      = List.replicate p false := by
    refine List.eq_replicate_iff.mpr ⟨by simp, ?_⟩
    intro b hb
    obtain ⟨i, hi, rfl⟩ := List.mem_map.mp hb
    have hip : i < p := List.mem_range.mp hi
    exact decide_eq_false (by omega)
  have hlast : (List.map (fun i => decide (p + 1 ≤ 0 + i + 1)) [p]) = [true] := by
    simp only [List.map_cons, List.map_nil]
    rw [decide_eq_true (by omega : p + 1 ≤ 0 + p + 1)]
  rw [hmap, hlast, List.replicate_succ]
  rfl

/-- C5 (spec-modelled, `EarlyStopper` lives outside the sources): a call
with `best` at its plus-infinity initialization or with
`value < best - delta` records the new best, resets the counter and
returns `False`; any other call increments the counter and returns `True`
exactly when the counter has reached `patience`.  Consequently a strictly
decreasing stream (each value below the previous one by more than
`delta`) never raises the stop signal, and a constant stream of length
`patience+1` raises it exactly once, on the final call, where the counter
reaches `patience`. -/
theorem early_stopper_contract (delta : ℚ) (patience : Nat) :
    (∀ st : EarlyStopper, ∀ v, st.best = none →
      st.call v = (false, { st with best := some v, counter := 0 })) ∧
    (∀ st : EarlyStopper, ∀ v b, st.best = some b → v < b - st.delta →
      st.call v = (false, { st with best := some v, counter := 0 })) ∧
    (∀ st : EarlyStopper, ∀ v b, st.best = some b → ¬ v < b - st.delta →
      st.call v = (decide (st.patience ≤ st.counter + 1),
        { st with counter := st.counter + 1 })) ∧
    (∀ vs, strictlyDecr delta vs = true →
      ((runStopper (freshStopper delta patience) vs).1.any (fun x => x)) = false) ∧
    (0 ≤ delta → 1 ≤ patience → ∀ v,
      (runStopper (freshStopper delta patience) (List.replicate (patience + 1) v)).1
        = List.replicate patience false ++ [true]) := by
  refine ⟨?_, ?_, ?_, stopper_never_stops delta patience, ?_⟩
  · intro st v h
    simp [EarlyStopper.call, h]
  · intro st v b h hlt
    simp [EarlyStopper.call, h, hlt]
  · intro st v b h hlt
    simp [EarlyStopper.call, h, hlt]
  · intro hd hp v
    exact stopper_plateau_outputs delta patience v hd hp

/-- Closed instance of C5 with `delta = 0`, `patience = 2`. -/
theorem early_stopper_contract_witness :
    ((freshStopper 0 2).best = none ∧
     (freshStopper 0 2).call 7
       = (false, { freshStopper 0 2 with best := some 7, counter := 0 })) ∧
    (strictlyDecr 0 [5, 3, 1] = true ∧
     ((runStopper (freshStopper 0 2) [5, 3, 1]).1.any (fun x => x)) = false) ∧
    ((0:ℚ) ≤ 0 ∧ 1 ≤ 2 ∧
     (runStopper (freshStopper 0 2) (List.replicate (2 + 1) 9)).1
       = List.replicate 2 false ++ [true]) :=
  ⟨⟨rfl, (early_stopper_contract 0 2).1 (freshStopper 0 2) 7 rfl⟩,
   ⟨by simp only [strictlyDecr, Bool.and_eq_true, decide_eq_true_eq, sub_zero]
       exact ⟨by decide, by decide, trivial⟩,
    (early_stopper_contract 0 2).2.2.2.1 [5, 3, 1]
      (by simp only [strictlyDecr, Bool.and_eq_true, decide_eq_true_eq, sub_zero]
          exact ⟨by decide, by decide, trivial⟩)⟩,
   ⟨by decide, by decide,
    (early_stopper_contract 0 2).2.2.2.2 (by decide) (by decide) 9⟩⟩

theorem validate_map_int : ∀ l : List Int, (∀ x ∈ l, 0 ≤ x) →
    validateCheckpoints (l.map PyVal.int) = .ok l
  | [], _ => rfl
  | x :: rest, h => by
    have hx : 0 ≤ x := h x (List.mem_cons_self x rest)
    have hr := validate_map_int rest (fun y hy => h y (List.mem_cons_of_mem x hy))
    simp [validateCheckpoints, hx, hr, Except.map]

theorem validate_bad_element : ∀ l : List PyVal, (∃ v ∈ l, isNonnegInt v = false) →
    validateCheckpoints l = .error .assertionError := by
  intro l h
  induction l with
  | nil =>
    obtain ⟨v, hv, _⟩ := h
    exact absurd hv (List.not_mem_nil v)
  | cons v rest ih =>
    obtain ⟨w, hw, hbad⟩ := h
    cases v with
    | int n =>
      by_cases hn : 0 ≤ n
      · have hrest : ∃ u ∈ rest, isNonnegInt u = false := by
          rcases List.mem_cons.mp hw with heq | hmem
          · exfalso
            rw [heq] at hbad
            simp [isNonnegInt, hn] at hbad
          · exact ⟨w, hmem, hbad⟩
        simp [validateCheckpoints, hn, ih hrest, Except.map]
      · simp [validateCheckpoints, hn]
    | float q => rfl
    | str s => rfl
    | pylist l2 => rfl

/-- C2: an integer `N_EPOCHS = n` normalizes to the one-element checkpoint
list `[n]`; a list of integers is preserved verbatim; a negative or
non-integer element makes the assertion block raise before any training,
and a failed validation means the checkpoint loop is never entered. -/
theorem checkpoint_normalization :
    (∀ n : Int, 0 ≤ n → checkpointsOf (.int n) = .ok [n]) ∧
    (∀ l : List Int, (∀ x ∈ l, 0 ≤ x) →
      checkpointsOf (.pylist (l.map PyVal.int)) = .ok l) ∧
    (∀ n : Int, n < 0 → checkpointsOf (.int n) = .error .assertionError) ∧
    (∀ l : List PyVal, (∃ v ∈ l, isNonnegInt v = false) →
      checkpointsOf (.pylist l) = .error .assertionError) ∧
    (∀ cfg ne e, checkpointsOf ne = .error e → trainProgram cfg ne = .error e) := by
  refine ⟨?_, ?_, ?_, ?_, ?_⟩
  · intro n h
    simp [checkpointsOf, CHECKPOINTSOf, pyIter, validateCheckpoints, h, Except.map]
  · intro l h
    simpa [checkpointsOf, CHECKPOINTSOf, pyIter] using validate_map_int l h
  · intro n h
    simp [checkpointsOf, CHECKPOINTSOf, pyIter, validateCheckpoints, not_le.mpr h]
  · intro l h
    simpa [checkpointsOf, CHECKPOINTSOf, pyIter] using validate_bad_element l h
  · intro cfg ne e h
    simp [trainProgram, h]

/-- Closed instance of C2: `N_EPOCHS = 50`, `[10,20,30]`, `-3`, a list
with a string element, and a failed validation reaching the program. -/
theorem checkpoint_normalization_witness :
    checkpointsOf (.int 50) = .ok [50] ∧
    checkpointsOf (.pylist ([10, 20, 30].map PyVal.int)) = .ok [10, 20, 30] ∧
    checkpointsOf (.int (-3)) = .error .assertionError ∧
    checkpointsOf (.pylist [PyVal.int 10, PyVal.str ("a")]) = .error .assertionError ∧
    trainProgram cfgW (.str ("x")) = .error .assertionError :=
  ⟨checkpoint_normalization.1 50 (by decide),
   checkpoint_normalization.2.1 [10, 20, 30] (by decide),
   checkpoint_normalization.2.2.1 (-3) (by decide),
   checkpoint_normalization.2.2.2.1 [PyVal.int 10, PyVal.str ("a")]
     ⟨PyVal.str ("a"), List.mem_cons_of_mem _ (List.mem_cons_self _ _), rfl⟩,
   checkpoint_normalization.2.2.2.2 cfgW (.str ("x")) .assertionError rfl⟩

theorem zip_absdiff_nonneg : ∀ (y1 y2 : List ℚ),
    (0:ℚ) ≤ (List.zipWith (fun a b => |a - b|) y1 y2).sum
  | [], _ => by simp
  | _ :: _, [] => by simp
  | a :: t, b :: u => by
    simp only [List.zipWith_cons_cons, List.sum_cons]
    have h1 : (0:ℚ) ≤ |a - b| := abs_nonneg _
    have h2 := zip_absdiff_nonneg t u
    linarith

theorem zip_absdiff_self : ∀ (u : List ℚ),
    (List.zipWith (fun a b => |a - b|) u u).sum = 0
  | [] => by simp
  | b :: u => by simp [zip_absdiff_self u]

theorem zip_absdiff_zero_iff : ∀ (y1 y2 : List ℚ), y1.length = y2.length →
    ((List.zipWith (fun a b => |a - b|) y1 y2).sum = 0 ↔ y1 = y2)
  | [], [], _ => by simp
  | [], _ :: _, h => by simp at h
  | _ :: _, [], h => by simp at h
  | a :: t, b :: u, h => by
    simp only [List.zipWith_cons_cons, List.sum_cons]
    have hlen' : t.length = u.length := by simpa using h
    have h1 : (0:ℚ) ≤ |a - b| := abs_nonneg _
    have h2 := zip_absdiff_nonneg t u
    constructor
    · intro h0
      have hab : |a - b| = 0 := le_antisymm (by linarith) h1
      have hsum : (List.zipWith (fun a b => |a - b|) t u).sum = 0 :=
        le_antisymm (by linarith) h2
      have hab' : a = b := by
        have hd := abs_eq_zero.mp hab
        linarith
      have htu : t = u := (zip_absdiff_zero_iff t u hlen').mp hsum
      rw [hab', htu]
    · intro he
      injection he with he1 he2
      subst he1
      subst he2
      simp [zip_absdiff_self]

theorem stochasticity_flag_iff (y1 y2 : List ℚ) (hlen : y1.length = y2.length) :
    dropoutFlag y1 y2 = true ↔ y1 ≠ y2 := by
  unfold dropoutFlag meanAbsDiff listAvg
  rw [decide_eq_true_iff]
  cases y1 with
  | nil =>
    have h2 : y2 = [] := List.eq_nil_of_length_eq_zero hlen.symm
    subst h2
    simp
  | cons a t =>
    cases y2 with
    | nil => exact absurd hlen (by simp)
    | cons b u =>
      have hlenL : (List.zipWith (fun a b => |a - b|) (a :: t) (b :: u)).length
          = (a :: t).length := by
        rw [List.length_zipWith, hlen]
        exact Nat.min_self _
      have hn : (0:ℚ) < (((a :: t) : List ℚ).length : ℚ) := by
        exact_mod_cast Nat.succ_pos t.length
      have key := zip_absdiff_zero_iff (a :: t) (b :: u) hlen
      have hnn := zip_absdiff_nonneg (a :: t) (b :: u)
      rw [hlenL]
      constructor
      · intro hpos heq
        have hz : (List.zipWith (fun a b => |a - b|) (a :: t) (b :: u)).sum = 0 := key.mpr heq
        rw [hz] at hpos
        simp at hpos
      · intro hne
        have hz : (List.zipWith (fun a b => |a - b|) (a :: t) (b :: u)).sum ≠ 0 :=
          fun h0 => hne (key.mp h0)
        exact div_pos (lt_of_le_of_ne hnn (Ne.symm hz)) hn

/-- C6: the probe flag `dropout = (difference.abs().mean()>0).item()` is
`true` exactly when the two forward passes on the same probe batch differ;
a model returning identical outputs yields `false` and the plain metric
keys, a model whose outputs differ yields `true` and the Monte-Carlo
metric keys, and the one flag value selects the branch. -/
theorem stochasticity_flag (y1 y2 : List ℚ) (hlen : y1.length = y2.length) :
    (dropoutFlag y1 y2 = true ↔ y1 ≠ y2) ∧
    (y1 = y2 → dropoutFlag y1 y2 = false ∧
      metricKeysAdded (dropoutFlag y1 y2) true
        = ["METRIC_rmse", "METRIC_mae", "METRIC_max_norm"]) ∧
    (y1 ≠ y2 → dropoutFlag y1 y2 = true ∧
      metricKeysAdded (dropoutFlag y1 y2) true = stochasticMetricKeys true) := by
  have hmain := stochasticity_flag_iff y1 y2 hlen
  refine ⟨hmain, ?_, ?_⟩
  · intro heq
    have hf : dropoutFlag y1 y2 = false := by
      cases hflag : dropoutFlag y1 y2 with
      | false => rfl
      | true => exact absurd heq (hmain.mp hflag)
    rw [hf]
    exact ⟨rfl, rfl⟩
  · intro hne
    have ht : dropoutFlag y1 y2 = true := hmain.mpr hne
    rw [ht]
    exact ⟨rfl, rfl⟩

/-- Closed instance of C6 on equal and on differing probe outputs. -/
theorem stochasticity_flag_witness :
    (([4, 2] : List ℚ).length = ([4, 2] : List ℚ).length ∧
     dropoutFlag [4, 2] [4, 2] = false ∧
     metricKeysAdded (dropoutFlag [4, 2] [4, 2]) true
       = ["METRIC_rmse", "METRIC_mae", "METRIC_max_norm"]) ∧
    (([1, 2] : List ℚ).length = ([1, 3] : List ℚ).length ∧
     dropoutFlag [1, 2] [1, 3] = true ∧
     metricKeysAdded (dropoutFlag [1, 2] [1, 3]) true = stochasticMetricKeys true) :=
  ⟨⟨rfl, (stochasticity_flag [4, 2] [4, 2] rfl).2.1 rfl⟩,
   ⟨rfl, (stochasticity_flag [1, 2] [1, 3] rfl).2.2
     (by simp)⟩⟩

/-- C7: the stochastic metrics branch assigns the median/mean RMSE, MAE
and max-norm keys, the median energy score, coverage and the median
interval score, and none of the plain point-error keys; the deterministic
branch assigns exactly the three plain point-error keys. -/
theorem metrics_dispatch :
    ("METRIC_rmse_of_median" ∈ stochasticMetricKeys true ∧
     "METRIC_rmse_of_mean" ∈ stochasticMetricKeys true ∧
     "METRIC_mae_of_median" ∈ stochasticMetricKeys true ∧
     "METRIC_mae_of_mean" ∈ stochasticMetricKeys true ∧
     "METRIC_max_norm_of_median" ∈ stochasticMetricKeys true ∧
     "METRIC_max_norm_of_mean" ∈ stochasticMetricKeys true ∧
     "METRIC_median_energy_score" ∈ stochasticMetricKeys true ∧
     "METRIC_coverage" ∈ stochasticMetricKeys true ∧
     "METRIC_median_avg_inverval_score" ∈ stochasticMetricKeys true) ∧
    ("METRIC_rmse_of_median" ∈ stochasticMetricKeys false ∧
     "METRIC_rmse_of_mean" ∈ stochasticMetricKeys false ∧
     "METRIC_mae_of_median" ∈ stochasticMetricKeys false ∧
     "METRIC_mae_of_mean" ∈ stochasticMetricKeys false ∧
     "METRIC_max_norm_of_median" ∈ stochasticMetricKeys false ∧
     "METRIC_max_norm_of_mean" ∈ stochasticMetricKeys false ∧
     "METRIC_median_energy_score" ∈ stochasticMetricKeys false ∧
     "METRIC_coverage" ∈ stochasticMetricKeys false ∧
     "METRIC_median_avg_inverval_score" ∈ stochasticMetricKeys false) ∧
    ("METRIC_rmse" ∉ stochasticMetricKeys true ∧
     "METRIC_mae" ∉ stochasticMetricKeys true ∧
     "METRIC_max_norm" ∉ stochasticMetricKeys true ∧
     "METRIC_rmse" ∉ stochasticMetricKeys false ∧
     "METRIC_mae" ∉ stochasticMetricKeys false ∧
     "METRIC_max_norm" ∉ stochasticMetricKeys false) ∧
    (metricKeysAdded true true = stochasticMetricKeys true ∧
     metricKeysAdded true false = stochasticMetricKeys false ∧
     metricKeysAdded false true = ["METRIC_rmse", "METRIC_mae", "METRIC_max_norm"] ∧
     metricKeysAdded false false = ["METRIC_rmse", "METRIC_mae", "METRIC_max_norm"]) := by
  refine ⟨?_, ?_, ?_, rfl, rfl, rfl, rfl⟩ <;> decide

/-- C8: at the evaluation stage the missing-grid condition
(`AttributeError` from the grid `try:` block) is caught narrowly with one
warning; the record still receives every non-grid key and persistence
still runs; the grid-dependent keys appear only when the grids were
bound; any exception other than `AttributeError` raised in that block
propagates. -/
theorem missing_grid_recovery :
    (∀ d : Bool, evalStage d (.error .attributeError)
      = .ok { warnings := 1, keys := recordBaseKeys ++ metricKeysAdded d false,
              persisted := true }) ∧
    ("METRIC_extrapolation_uncertainty_spread_quantile" ∈ metricKeysAdded true true ∧
     "METRIC_extrapolation_uncertainty_spread_quantile" ∉ metricKeysAdded true false ∧
     "METRIC_interpolation_uncertainty_spread_pm2_std" ∈ metricKeysAdded true true ∧
     "METRIC_interpolation_uncertainty_spread_pm2_std" ∉ metricKeysAdded true false ∧
     "METRIC_rmse_of_median" ∈ metricKeysAdded true false ∧
     "METRIC_coverage" ∈ metricKeysAdded true false ∧
     "METRIC_uncertainty_vs_accuracy_slope_quantile" ∈ metricKeysAdded true false) ∧
    (∀ e : PyExc, ¬ e = .attributeError → ∀ d : Bool, evalStage d (.error e) = .error e) ∧
    (∀ d g : Bool, evalStage d (.ok g)
      = .ok { warnings := 0, keys := recordBaseKeys ++ metricKeysAdded d g,
              persisted := true }) := by
  refine ⟨fun d => rfl, by decide, ?_, fun d g => rfl⟩
  intro e he d
  cases e with
  | attributeError => exact absurd rfl he
  | nameError => rfl
  | assertionError => rfl
  | typeError => rfl
  | systemExit => rfl
  | otherError => rfl

/-- Closed instance of C8: a missing-grid evaluation, a foreign exception
in the grid block, and a successful grid block. -/
theorem missing_grid_recovery_witness :
    evalStage true (.error .attributeError)
      = .ok { warnings := 1, keys := recordBaseKeys ++ metricKeysAdded true false,
              persisted := true } ∧
    evalStage false (.error .otherError) = .error .otherError ∧
    evalStage true (.ok true)
      = .ok { warnings := 0, keys := recordBaseKeys ++ metricKeysAdded true true,
              persisted := true } :=
  ⟨missing_grid_recovery.1 true,
   missing_grid_recovery.2.2.1 .otherError (by decide) false,
   missing_grid_recovery.2.2.2 true true⟩

/-- C9 (the code as written): with `--json` absent in non-interactive mode
the program fails at once — `parse_args` raises `SystemExit` — but the
console hint is not printed on that path: the `try/except` that would
print it wraps `parser.add_argument`, which does not raise for a missing
user argument. -/
theorem cli_missing_json :
    cliBlock none = { hintPrinted := false, parsed := .error .systemExit } := rfl
